import Mathlib

/-!
Shallow embedding of the forecast aggregation pipeline of
src/weather_app.py: sample ingestion (prepare_forecast_df, lines 117-133),
the per-day group-by aggregation (daily, lines 162-167) and the bounded
detail window (short, lines 230-233).

Numbers are modelled by Rat; a timestamp is an epoch-seconds Int and the
calendar date extracted from it is its day index (floor division by 86400),
mirroring datetime.fromtimestamp(...).date() with no timezone conversion.
-/

namespace WeatherApp

/-- One raw forecast item as delivered in forecast_json of the source.
Each field that the Python code reads with mandatory indexing (item getting
dt, main temp, main humidity, wind speed, weather 0 description) is an
Option that is none when the key chain is absent; rain3h models the
optional rain object: outer none = no rain key, inner none = no 3h entry
or a null value. -/
structure RawItem where
  dt : Option Int
  temp : Option Rat
  humidity : Option Rat
  windSpeed : Option Rat
  rain3h : Option (Option Rat)
  desc : Option String
deriving Repr, DecidableEq

/-- One row of the dataframe built by prepare_forecast_df (line 129-131). -/
structure Row where
  dt : Int
  date : Int
  time : Int
  temp : Rat
  humidity : Rat
  wind : Rat
  rain : Rat
  desc : String
deriving Repr, DecidableEq

def secondsPerDay : Int := 86400

/-- Python str.title for ASCII text: a letter is uppercased when the
previous character is not a letter, lowercased otherwise (line 131). -/
def titleChars : List Char → Bool → List Char
  | [], _ => []
  | c :: cs, prevAlpha =>
    (if c.isAlpha then (if prevAlpha then c.toLower else c.toUpper) else c) :: titleChars cs c.isAlpha

def titleCase (s : String) : String := String.mk (titleChars s.data false)

/-- Python dict indexing with a required key: KeyError when absent. -/
def require {α : Type} (key : String) : Option α → Except String α
  | some v => .ok v
  | none => .error ("KeyError: " ++ key)

/-- Body of the loop of prepare_forecast_df (lines 120-131): required
fields are read with mandatory indexing and raise on absence; the rain
field is read permissively (rain = 0.0 unless a rain object with a truthy
3h entry is present, lines 125-128). -/
def parseItem (it : RawItem) : Except String Row :=
  match it.dt with
  | none => .error "KeyError: dt"
  | some dt =>
    match it.temp with
    | none => .error "KeyError: temp"
    | some temp =>
      match it.humidity with
      | none => .error "KeyError: humidity"
      | some humidity =>
        match it.windSpeed with
        | none => .error "KeyError: speed"
        | some wind =>
          match it.desc with
          | none => .error "KeyError: description"
          | some d =>
            .ok { dt := dt
                  date := dt.fdiv secondsPerDay
                  time := dt.emod secondsPerDay
                  temp := temp
                  humidity := humidity
                  wind := wind
                  rain := match it.rain3h with
                          | some (some v) => if v ≠ 0 then v else 0
                          | _ => 0
                  desc := titleCase d }

/-- prepare_forecast_df (lines 117-133): rows are built in input order and
the first malformed item aborts the whole construction (Python raises out
of the loop). -/
def prepareForecast : List RawItem → Except String (List Row)
  | [] => .ok []
  | it :: its =>
    match parseItem it with
    | .error e => .error e
    | .ok r =>
      match prepareForecast its with
      | .error e => .error e
      | .ok rs => .ok (r :: rs)

/-- Aggregated statistics for one calendar date, with the column names the
source assigns on line 167. -/
structure DailySummary where
  date : Int
  temp_mean : Rat
  temp_min : Rat
  temp_max : Rat
  rain_sum : Rat
  humidity_mean : Rat
deriving Repr, DecidableEq

/-- Minimum of a list of rationals (0 on the empty list, which the
aggregation never reaches: groups are nonempty). -/
def listMin : List Rat → Rat
  | [] => 0
  | x :: xs => xs.foldl min x

/-- Maximum of a list of rationals (0 on the empty list). -/
def listMax : List Rat → Rat
  | [] => 0
  | x :: xs => xs.foldl max x

/-- Arithmetic mean of a list of rationals: sum over length. -/
def meanOf (l : List Rat) : Rat := l.sum / (l.length : Rat)

/-- The group of rows of one calendar date (the group-by partition). -/
def groupRows (rows : List Row) (d : Int) : List Row :=
  rows.filter (fun r => r.date == d)

/-- The distinct dates occurring in the rows. -/
def distinctDates (rows : List Row) : List Int :=
  (rows.map Row.date).dedup

/-- The distinct dates in ascending order: pandas groupby sorts the group
keys ascending. -/
def sortedDates (rows : List Row) : List Int :=
  List.insertionSort (fun a b => a ≤ b) (distinctDates rows)

/-- The aggregation dictionary of lines 162-166 applied to one date group:
temp mean, min and max, rain sum, humidity mean. -/
def summarize (rows : List Row) (d : Int) : DailySummary :=
  let g := groupRows rows d
  { date := d
    temp_mean := meanOf (g.map Row.temp)
    temp_min := listMin (g.map Row.temp)
    temp_max := listMax (g.map Row.temp)
    rain_sum := (g.map Row.rain).sum
    humidity_mean := meanOf (g.map Row.humidity) }

/-- The group-by aggregation of lines 162-167 on a nonempty frame: one
summary per distinct date, keys sorted ascending. -/
def buildDailySummaries (rows : List Row) : List DailySummary :=
  (sortedDates rows).map (summarize rows)

/-- Line 162 as actually executed on the frame returned by
prepare_forecast_df: when the input list is empty, pd.DataFrame of an
empty row list has no columns at all, so groupby applied to the date
column raises KeyError; otherwise every row dict carries a date key and
the grouped aggregation succeeds. -/
def dailyAgg (rows : List Row) : Except String (List DailySummary) :=
  match rows with
  | [] => .error "KeyError: date"
  | _ :: _ => .ok (buildDailySummaries rows)

/-- Line 230: short = df_fore.head(limit) with limit 12 in the source:
the first limit rows in original order. -/
def buildDetailWindow (rows : List Row) (limit : Nat) : List Row :=
  rows.take limit

/-- The 8-sample two-date scenario of the specification: 2025-06-05
(day index 20244) with temps 28, 30, 29, 31 and rain 0, 1.2, 0, 0.5, and
2025-06-06 (day index 20245) with temps 27, 26, 28, 29 and rain
2.0, 0, 0, 0.3. -/
def exampleRows : List Row :=
  [ { dt := 1749081600, date := 20244, time := 0, temp := 28, humidity := 50, wind := 3, rain := 0, desc := "Clear Sky" },
    { dt := 1749092400, date := 20244, time := 10800, temp := 30, humidity := 60, wind := 3, rain := 1.2, desc := "Light Rain" },
    { dt := 1749103200, date := 20244, time := 21600, temp := 29, humidity := 55, wind := 3, rain := 0, desc := "Clouds" },
    { dt := 1749114000, date := 20244, time := 32400, temp := 31, humidity := 55, wind := 3, rain := 0.5, desc := "Light Rain" },
    { dt := 1749168000, date := 20245, time := 0, temp := 27, humidity := 60, wind := 3, rain := 2, desc := "Rain" },
    { dt := 1749178800, date := 20245, time := 10800, temp := 26, humidity := 60, wind := 3, rain := 0, desc := "Clouds" },
    { dt := 1749189600, date := 20245, time := 21600, temp := 28, humidity := 60, wind := 3, rain := 0, desc := "Clear Sky" },
    { dt := 1749200400, date := 20245, time := 32400, temp := 29, humidity := 60, wind := 3, rain := 0.3, desc := "Clouds" } ]

/-- Two single-date rows used as concrete inputs in closed statements. -/
def rowA : Row :=
  { dt := 1749081600, date := 20244, time := 0, temp := 28, humidity := 50, wind := 3, rain := 0, desc := "Clear Sky" }

/-- A second row on the same date as rowA. -/
def rowB : Row :=
  { dt := 1749092400, date := 20244, time := 10800, temp := 30, humidity := 60, wind := 3, rain := 1.2, desc := "Light Rain" }

/-- A raw item whose required temp field is missing. -/
def badItem : RawItem :=
  { dt := some 1749081600, temp := none, humidity := some 50, windSpeed := some 3,
    rain3h := none, desc := some "haze" }

/-- A raw item with every required field present, arbitrary rain shape. -/
def mkItem (dt : Int) (t hum w : Rat) (ds : String) (r3 : Option (Option Rat)) : RawItem :=
  { dt := some dt
    temp := some t
    humidity := some hum
    windSpeed := some w
    rain3h := r3
    desc := some ds }

/-! ### Lemmas on list minimum, maximum and mean -/

theorem foldl_min_le_init (xs : List Rat) : ∀ a : Rat, xs.foldl min a ≤ a := by
  induction xs with
  | nil => intro a; exact le_refl a
  | cons y ys ih => intro a; exact le_trans (ih (min a y)) (min_le_left a y)

theorem foldl_min_le_mem (xs : List Rat) : ∀ (a x : Rat), x ∈ xs → xs.foldl min a ≤ x := by
  induction xs with
  | nil => intro a x hx; cases hx
  | cons y ys ih =>
    intro a x hx
    rcases List.mem_cons.mp hx with rfl | hx'
    · exact le_trans (foldl_min_le_init ys (min a x)) (min_le_right a x)
    · exact ih (min a y) x hx'

theorem foldl_min_choice (xs : List Rat) : ∀ a : Rat, xs.foldl min a = a ∨ xs.foldl min a ∈ xs := by
  induction xs with
  | nil => intro a; exact Or.inl rfl
  | cons y ys ih =>
    intro a
    rcases ih (min a y) with h | h
    · rcases le_total a y with hay | hya
      · exact Or.inl (by rw [List.foldl_cons, h, min_eq_left hay])
      · refine Or.inr ?_
        rw [List.foldl_cons, h, min_eq_right hya]
        exact List.mem_cons_self y ys
    · exact Or.inr (List.mem_cons_of_mem y (by rw [List.foldl_cons]; exact h))

theorem foldl_max_ge_init (xs : List Rat) : ∀ a : Rat, a ≤ xs.foldl max a := by
  induction xs with
  | nil => intro a; exact le_refl a
  | cons y ys ih => intro a; exact le_trans (le_max_left a y) (ih (max a y))

theorem foldl_max_ge_mem (xs : List Rat) : ∀ (a x : Rat), x ∈ xs → x ≤ xs.foldl max a := by
  induction xs with
  | nil => intro a x hx; cases hx
  | cons y ys ih =>
    intro a x hx
    rcases List.mem_cons.mp hx with rfl | hx'
    · exact le_trans (le_max_right a x) (foldl_max_ge_init ys (max a x))
    · exact ih (max a y) x hx'

theorem foldl_max_choice (xs : List Rat) : ∀ a : Rat, xs.foldl max a = a ∨ xs.foldl max a ∈ xs := by
  induction xs with
  | nil => intro a; exact Or.inl rfl
  | cons y ys ih =>
    intro a
    rcases ih (max a y) with h | h
    · rcases le_total a y with hay | hya
      · refine Or.inr ?_
        rw [List.foldl_cons, h, max_eq_right hay]
        exact List.mem_cons_self y ys
      · exact Or.inl (by rw [List.foldl_cons, h, max_eq_left hya])
    · exact Or.inr (List.mem_cons_of_mem y (by rw [List.foldl_cons]; exact h))

theorem listMin_le_mem (l : List Rat) (x : Rat) (hx : x ∈ l) : listMin l ≤ x := by
  cases l with
  | nil => cases hx
  | cons y ys =>
    rcases List.mem_cons.mp hx with rfl | hx'
    · exact foldl_min_le_init ys x
    · exact foldl_min_le_mem ys y x hx'

theorem listMin_mem (l : List Rat) (h : l ≠ []) : listMin l ∈ l := by
  cases l with
  | nil => exact absurd rfl h
  | cons y ys =>
    show ys.foldl min y ∈ y :: ys
    rcases foldl_min_choice ys y with h' | h'
    · rw [h']; exact List.mem_cons_self y ys
    · exact List.mem_cons_of_mem y h'

theorem listMax_ge_mem (l : List Rat) (x : Rat) (hx : x ∈ l) : x ≤ listMax l := by
  cases l with
  | nil => cases hx
  | cons y ys =>
    rcases List.mem_cons.mp hx with rfl | hx'
    · exact foldl_max_ge_init ys x
    · exact foldl_max_ge_mem ys y x hx'

theorem listMax_mem (l : List Rat) (h : l ≠ []) : listMax l ∈ l := by
  cases l with
  | nil => exact absurd rfl h
  | cons y ys =>
    show ys.foldl max y ∈ y :: ys
    rcases foldl_max_choice ys y with h' | h'
    · rw [h']; exact List.mem_cons_self y ys
    · exact List.mem_cons_of_mem y h'

theorem mul_length_le_sum (l : List Rat) (c : Rat) (h : ∀ x ∈ l, c ≤ x) :
    (l.length : Rat) * c ≤ l.sum := by
  induction l with
  | nil => simp
  | cons x xs ih =>
    have h₁ : c ≤ x := h x (List.mem_cons_self x xs)
    have h₂ : (xs.length : Rat) * c ≤ xs.sum := ih (fun y hy => h y (List.mem_cons_of_mem x hy))
    simp only [List.length_cons, List.sum_cons]
    push_cast
    nlinarith

theorem sum_le_mul_length (l : List Rat) (c : Rat) (h : ∀ x ∈ l, x ≤ c) :
    l.sum ≤ (l.length : Rat) * c := by
  induction l with
  | nil => simp
  | cons x xs ih =>
    have h₁ : x ≤ c := h x (List.mem_cons_self x xs)
    have h₂ : xs.sum ≤ (xs.length : Rat) * c := ih (fun y hy => h y (List.mem_cons_of_mem x hy))
    simp only [List.length_cons, List.sum_cons]
    push_cast
    nlinarith

theorem length_cast_pos (l : List Rat) (h : l ≠ []) : (0 : Rat) < (l.length : Rat) := by
  exact_mod_cast List.length_pos.mpr h

theorem meanOf_ge (l : List Rat) (h : l ≠ []) (c : Rat) (hc : ∀ x ∈ l, c ≤ x) :
    c ≤ meanOf l := by
  rw [meanOf, le_div_iff₀ (length_cast_pos l h), mul_comm]
  exact mul_length_le_sum l c hc

theorem meanOf_le (l : List Rat) (h : l ≠ []) (c : Rat) (hc : ∀ x ∈ l, x ≤ c) :
    meanOf l ≤ c := by
  rw [meanOf, div_le_iff₀ (length_cast_pos l h), mul_comm]
  exact sum_le_mul_length l c hc

/-! ### Lemmas on the date partition -/

theorem summarize_date (rows : List Row) (d : Int) : (summarize rows d).date = d := rfl

theorem map_date_build (rows : List Row) :
    (buildDailySummaries rows).map DailySummary.date = sortedDates rows := by
  rw [buildDailySummaries, List.map_map]
  have hid : ∀ d ∈ sortedDates rows, (DailySummary.date ∘ summarize rows) d = id d :=
    fun d _ => rfl
  rw [List.map_congr_left hid, List.map_id]

theorem sortedDates_nodup (rows : List Row) : (sortedDates rows).Nodup :=
  ((List.perm_insertionSort _ _).nodup_iff).mpr (List.nodup_dedup _)

theorem mem_sortedDates (rows : List Row) (d : Int) :
    d ∈ sortedDates rows ↔ d ∈ rows.map Row.date := by
  rw [sortedDates, (List.perm_insertionSort _ _).mem_iff, distinctDates, List.mem_dedup]

theorem group_ne_nil (rows : List Row) (d : Int) (hd : d ∈ sortedDates rows) :
    groupRows rows d ≠ [] := by
  obtain ⟨r, hr, hrd⟩ := List.mem_map.mp ((mem_sortedDates rows d).mp hd)
  exact List.ne_nil_of_mem (List.mem_filter.mpr ⟨hr, by simp [hrd]⟩)

theorem sum_map_add (ds : List Int) (f g : Int → Rat) :
    (ds.map (fun d => f d + g d)).sum = (ds.map f).sum + (ds.map g).sum := by
  induction ds with
  | nil => simp
  | cons d ds ih => simp [ih]; ring

theorem sum_map_if_single (ds : List Int) (a : Int) (c : Rat) (hnd : ds.Nodup) (ha : a ∈ ds) :
    (ds.map (fun d => if a = d then c else 0)).sum = c := by
  induction ds with
  | nil => cases ha
  | cons d ds ih =>
    rcases List.mem_cons.mp ha with rfl | hmem
    · simp only [List.map_cons, List.sum_cons]
      have hz : (ds.map (fun d => if a = d then c else 0)).sum = 0 := by
        apply List.sum_eq_zero
        intro x hx
        obtain ⟨d', hd', rfl⟩ := List.mem_map.mp hx
        have hne : a ≠ d' := by rintro rfl; exact (List.nodup_cons.mp hnd).1 hd'
        simp [hne]
      simp [hz]
    · have hne : a ≠ d := fun he => (List.nodup_cons.mp hnd).1 (he ▸ hmem)
      simp only [List.map_cons, List.sum_cons, if_neg hne, zero_add]
      exact ih (List.nodup_cons.mp hnd).2 hmem

theorem sum_groups (f : Row → Rat) (rows : List Row) (ds : List Int)
    (hnd : ds.Nodup) (hcov : ∀ r ∈ rows, r.date ∈ ds) :
    (ds.map (fun d => ((groupRows rows d).map f).sum)).sum = (rows.map f).sum := by
  induction rows with
  | nil =>
    simp only [groupRows, List.filter_nil, List.map_nil, List.sum_nil]
    exact List.sum_eq_zero (fun x hx => by
      obtain ⟨d, _, rfl⟩ := List.mem_map.mp hx
      rfl)
  | cons r rows ih =>
    have hstep : ∀ d : Int, ((groupRows (r :: rows) d).map f).sum
        = (if r.date = d then f r else 0) + ((groupRows rows d).map f).sum := by
      intro d
      by_cases h : r.date = d
      · simp [groupRows, List.filter_cons, h]
      · simp [groupRows, List.filter_cons, h]
    calc (ds.map (fun d => ((groupRows (r :: rows) d).map f).sum)).sum
        = (ds.map (fun d =>
            (if r.date = d then f r else 0) + ((groupRows rows d).map f).sum)).sum := by
          simp only [hstep]
      _ = (ds.map (fun d => if r.date = d then f r else 0)).sum
            + (ds.map (fun d => ((groupRows rows d).map f).sum)).sum :=
          sum_map_add ds _ _
      _ = f r + (rows.map f).sum := by
          rw [sum_map_if_single ds r.date (f r) hnd (hcov r (List.mem_cons_self r rows)),
            ih (fun x hx => hcov x (List.mem_cons_of_mem r hx))]
      _ = ((r :: rows).map f).sum := by simp

/-! ### Permutation invariance of the per-group statistics -/

theorem listMin_perm (l₁ l₂ : List Rat) (h : l₁.Perm l₂) : listMin l₁ = listMin l₂ := by
  cases hl : l₁ with
  | nil =>
    subst hl
    rw [h.symm.eq_nil]
  | cons y ys =>
    subst hl
    have h₂ : l₂ ≠ [] := fun he => by simp [he] at h
    refine le_antisymm ?_ ?_
    · exact listMin_le_mem (y :: ys) (listMin l₂) (h.mem_iff.mpr (listMin_mem l₂ h₂))
    · exact listMin_le_mem l₂ (listMin (y :: ys)) (h.mem_iff.mp (listMin_mem (y :: ys) (by simp)))

theorem listMax_perm (l₁ l₂ : List Rat) (h : l₁.Perm l₂) : listMax l₁ = listMax l₂ := by
  cases hl : l₁ with
  | nil =>
    subst hl
    rw [h.symm.eq_nil]
  | cons y ys =>
    subst hl
    have h₂ : l₂ ≠ [] := fun he => by simp [he] at h
    refine le_antisymm ?_ ?_
    · exact listMax_ge_mem l₂ (listMax (y :: ys)) (h.mem_iff.mp (listMax_mem (y :: ys) (by simp)))
    · exact listMax_ge_mem (y :: ys) (listMax l₂) (h.mem_iff.mpr (listMax_mem l₂ h₂))

theorem meanOf_perm (l₁ l₂ : List Rat) (h : l₁.Perm l₂) : meanOf l₁ = meanOf l₂ := by
  rw [meanOf, meanOf, h.sum_eq, h.length_eq]

theorem summarize_perm (rows₁ rows₂ : List Row) (h : rows₁.Perm rows₂) (d : Int) :
    summarize rows₁ d = summarize rows₂ d := by
  have hg : (groupRows rows₁ d).Perm (groupRows rows₂ d) := h.filter _
  simp only [summarize, DailySummary.mk.injEq]
  exact ⟨trivial, meanOf_perm _ _ (hg.map Row.temp), listMin_perm _ _ (hg.map Row.temp),
    listMax_perm _ _ (hg.map Row.temp), (hg.map Row.rain).sum_eq,
    meanOf_perm _ _ (hg.map Row.humidity)⟩

theorem sortedDates_perm (rows₁ rows₂ : List Row) (h : rows₁.Perm rows₂) :
    sortedDates rows₁ = sortedDates rows₂ := by
  have hdd : (distinctDates rows₁).Perm (distinctDates rows₂) := (h.map Row.date).dedup
  exact List.eq_of_perm_of_sorted
    ((List.perm_insertionSort _ _).trans (hdd.trans (List.perm_insertionSort _ _).symm))
    (List.sorted_insertionSort _ _) (List.sorted_insertionSort _ _)

/-! ### Exactly one output entry per date -/

theorem filter_date_map_length (ds : List Int) (rows : List Row) (d : Int)
    (hnd : ds.Nodup) (hd : d ∈ ds) :
    ((ds.map (summarize rows)).filter (fun s => s.date == d)).length = 1 := by
  induction ds with
  | nil => cases hd
  | cons a ds ih =>
    simp only [List.map_cons, List.filter_cons]
    rcases List.mem_cons.mp hd with rfl | hmem
    · have hb : ((summarize rows d).date == d) = true := by simp [summarize_date]
      have hz : ((ds.map (summarize rows)).filter (fun s => s.date == d)) = [] := by
        rw [List.filter_eq_nil_iff]
        intro s hs
        obtain ⟨a', ha', rfl⟩ := List.mem_map.mp hs
        have hne : a' ≠ d := by rintro rfl; exact (List.nodup_cons.mp hnd).1 ha'
        simp [summarize_date, hne]
      rw [hb, if_pos rfl, hz]
      rfl
    · have hne : a ≠ d := by rintro rfl; exact (List.nodup_cons.mp hnd).1 hmem
      have hb : ((summarize rows a).date == d) = false := by simp [summarize_date, hne]
      rw [hb, if_neg (by simp)]
      exact ih (List.nodup_cons.mp hnd).2 hmem

/-! ### Field equations of summarize -/

theorem summarize_temp_mean (rows : List Row) (d : Int) :
    (summarize rows d).temp_mean = meanOf ((groupRows rows d).map Row.temp) := rfl

theorem summarize_temp_min (rows : List Row) (d : Int) :
    (summarize rows d).temp_min = listMin ((groupRows rows d).map Row.temp) := rfl

theorem summarize_temp_max (rows : List Row) (d : Int) :
    (summarize rows d).temp_max = listMax ((groupRows rows d).map Row.temp) := rfl

theorem summarize_rain_sum (rows : List Row) (d : Int) :
    (summarize rows d).rain_sum = ((groupRows rows d).map Row.rain).sum := rfl

theorem summarize_humidity_mean (rows : List Row) (d : Int) :
    (summarize rows d).humidity_mean = meanOf ((groupRows rows d).map Row.humidity) := rfl

/-- A parse failure of any member aborts prepare_forecast_df as a whole. -/
theorem prepareForecast_fails (items : List RawItem) (it : RawItem)
    (he : ∃ e, parseItem it = Except.error e) :
    it ∈ items → ∀ rows, prepareForecast items ≠ Except.ok rows := by
  induction items with
  | nil => intro hmem; cases hmem
  | cons x xs ih =>
    intro hmem rows hok
    rcases List.mem_cons.mp hmem with rfl | hmem'
    · obtain ⟨e, hee⟩ := he
      simp [prepareForecast, hee] at hok
    · cases hx : parseItem x with
      | error e => simp [prepareForecast, hx] at hok
      | ok r =>
        cases hxs : prepareForecast xs with
        | error e => simp [prepareForecast, hx, hxs] at hok
        | ok rs => exact ih hmem' rs hxs

/-! ### Claim theorems -/

/-- Claim C2: summing rain_sum over every DailySummary produced by
buildDailySummaries equals summing the rain column over the entire input:
the per-date groups partition the input rows and rainfall is conserved by
the aggregation. -/
theorem rain_conservation (rows : List Row) :
    ((buildDailySummaries rows).map DailySummary.rain_sum).sum = (rows.map Row.rain).sum := by
  have hmap : (buildDailySummaries rows).map DailySummary.rain_sum
      = (sortedDates rows).map (fun d => ((groupRows rows d).map Row.rain).sum) := by
    rw [buildDailySummaries, List.map_map]
    rfl
  rw [hmap]
  exact sum_groups Row.rain rows (sortedDates rows) (sortedDates_nodup rows)
    (fun r hr => (mem_sortedDates rows r.date).mpr (List.mem_map_of_mem Row.date hr))

/-- Claim C3: the output of buildDailySummaries is sorted by strictly
ascending date, its length equals the number of distinct dates of the
input, and its dates are exactly the dates occurring in the input. -/
theorem build_sorted_distinct (rows : List Row) :
    ((buildDailySummaries rows).map DailySummary.date).Sorted (fun a b => a < b) ∧
    (buildDailySummaries rows).length = (distinctDates rows).length ∧
    ∀ d : Int, (d ∈ (buildDailySummaries rows).map DailySummary.date ↔ d ∈ rows.map Row.date) := by
  refine ⟨?_, ?_, ?_⟩
  · rw [map_date_build]
    exact (List.sorted_insertionSort _ _).lt_of_le (sortedDates_nodup rows)
  · rw [buildDailySummaries, List.length_map]
    exact (List.perm_insertionSort _ _).length_eq
  · intro d
    rw [map_date_build]
    exact mem_sortedDates rows d

/-- Claim C4: what the pipeline does on the empty input. The detail window
of an empty frame is empty, but the daily aggregation raises: pandas builds
a column-free DataFrame from an empty row list, so the group-by on the date
column fails with KeyError instead of returning an empty output. -/
theorem empty_input_behavior :
    dailyAgg [] = Except.error "KeyError: date" ∧
    buildDetailWindow [] 12 = [] ∧
    prepareForecast [] = Except.ok [] :=
  ⟨rfl, rfl, rfl⟩

/-- Claim C7: buildDailySummaries is invariant under every permutation of
its input rows; in particular reordering samples that share a calendar
date leaves every DailySummary unchanged. -/
theorem build_perm_invariant (rows₁ rows₂ : List Row) (h : rows₁.Perm rows₂) :
    buildDailySummaries rows₁ = buildDailySummaries rows₂ := by
  rw [buildDailySummaries, buildDailySummaries, sortedDates_perm rows₁ rows₂ h]
  exact List.map_congr_left (fun d _ => summarize_perm rows₁ rows₂ h d)

theorem build_perm_invariant_witness :
    buildDailySummaries [rowA, rowB] = buildDailySummaries [rowB, rowA] :=
  build_perm_invariant [rowA, rowB] [rowB, rowA] (List.Perm.swap rowB rowA [])

/-- Claim C8: buildDetailWindow returns exactly the first limit rows in
original order: its length is the minimum of limit and the input length,
element i of the output is element i of the input for i below limit, an
input no longer than limit is returned whole, and limit 0 yields the empty
sequence. -/
theorem detail_window_take (rows : List Row) (limit : Nat) :
    (buildDetailWindow rows limit).length = min limit rows.length ∧
    (∀ i : Nat, (buildDetailWindow rows limit)[i]? = if i < limit then rows[i]? else none) ∧
    (rows.length ≤ limit → buildDetailWindow rows limit = rows) ∧
    buildDetailWindow rows 0 = [] := by
  refine ⟨?_, ?_, ?_, rfl⟩
  · exact List.length_take limit rows
  · intro i
    exact List.getElem?_take
  · intro h
    exact List.take_of_length_le h

theorem detail_window_take_witness :
    buildDetailWindow exampleRows 12 = exampleRows ∧ buildDetailWindow exampleRows 0 = [] :=
  ⟨(detail_window_take exampleRows 12).2.2.1 (by decide),
    (detail_window_take exampleRows 0).2.2.2⟩

/-- Claim C5: a sample missing any required field (timestamp, temperature,
humidity, wind speed or description) makes parseItem fail with an error
naming the missing key, and the whole ingestion of any list containing
such a sample fails instead of substituting a default value. -/
theorem malformed_sample_fails (items : List RawItem) (it : RawItem) (hmem : it ∈ items)
    (hmiss : it.dt = none ∨ it.temp = none ∨ it.humidity = none ∨
      it.windSpeed = none ∨ it.desc = none) :
    (∃ e, parseItem it = Except.error e) ∧
    ∀ rows, prepareForecast items ≠ Except.ok rows := by
  have hnotok : ∀ r, parseItem it ≠ Except.ok r := by
    intro r hok
    rcases hmiss with h | h | h | h | h <;>
      rcases hdt : it.dt with _ | dtv <;>
      rcases htemp : it.temp with _ | tempv <;>
      rcases hhum : it.humidity with _ | humv <;>
      rcases hwind : it.windSpeed with _ | windv <;>
      rcases hdesc : it.desc with _ | descv <;>
      simp_all [parseItem]
  have herr : ∃ e, parseItem it = Except.error e := by
    cases hpe : parseItem it with
    | ok r => exact absurd hpe (hnotok r)
    | error e => exact ⟨e, rfl⟩
  exact ⟨herr, prepareForecast_fails items it herr hmem⟩

theorem malformed_sample_fails_witness :
    (∃ e, parseItem badItem = Except.error e) ∧
    ∀ rows, prepareForecast [badItem] ≠ Except.ok rows :=
  malformed_sample_fails [badItem] badItem (List.mem_singleton.mpr rfl)
    (Or.inr (Or.inl rfl))

/-- Claim C6: every DailySummary produced by buildDailySummaries satisfies
temp_min ≤ temp_mean ≤ temp_max, and when the summary's date has exactly
one sample in the input, min, mean and max all equal that sample's
temperature. -/
theorem daily_min_le_mean_le_max (rows : List Row) (s : DailySummary)
    (hs : s ∈ buildDailySummaries rows) :
    (s.temp_min ≤ s.temp_mean ∧ s.temp_mean ≤ s.temp_max) ∧
    ∀ r : Row, groupRows rows s.date = [r] →
      s.temp_min = r.temp ∧ s.temp_mean = r.temp ∧ s.temp_max = r.temp := by
  obtain ⟨d, hd, rfl⟩ := List.mem_map.mp hs
  have hg : groupRows rows d ≠ [] := group_ne_nil rows d hd
  have hm : (groupRows rows d).map Row.temp ≠ [] := fun h => hg (List.map_eq_nil_iff.mp h)
  constructor
  · constructor
    · rw [summarize_temp_min, summarize_temp_mean]
      exact meanOf_ge _ hm _ (fun x hx => listMin_le_mem _ x hx)
    · rw [summarize_temp_mean, summarize_temp_max]
      exact meanOf_le _ hm _ (fun x hx => listMax_ge_mem _ x hx)
  · intro r hr
    rw [summarize_date] at hr
    rw [summarize_temp_min, summarize_temp_max, summarize_temp_mean, hr]
    norm_num [listMin, listMax, meanOf]

theorem daily_min_le_mean_le_max_witness :
    (summarize exampleRows 20244).temp_min ≤ (summarize exampleRows 20244).temp_mean ∧
    (summarize exampleRows 20244).temp_mean ≤ (summarize exampleRows 20244).temp_max :=
  (daily_min_le_mean_le_max exampleRows (summarize exampleRows 20244)
    (List.mem_map_of_mem _ (by decide))).1

/-- Claim C9: when every input humidity lies in the interval from 0 to 100,
every produced DailySummary has humidity_mean in that interval. -/
theorem daily_humidity_in_range (rows : List Row)
    (hh : ∀ r ∈ rows, 0 ≤ r.humidity ∧ r.humidity ≤ 100)
    (s : DailySummary) (hs : s ∈ buildDailySummaries rows) :
    0 ≤ s.humidity_mean ∧ s.humidity_mean ≤ 100 := by
  obtain ⟨d, hd, rfl⟩ := List.mem_map.mp hs
  have hg : groupRows rows d ≠ [] := group_ne_nil rows d hd
  have hm : (groupRows rows d).map Row.humidity ≠ [] := fun h => hg (List.map_eq_nil_iff.mp h)
  have hmem : ∀ x ∈ (groupRows rows d).map Row.humidity, 0 ≤ x ∧ x ≤ 100 := by
    intro x hx
    obtain ⟨r, hr, rfl⟩ := List.mem_map.mp hx
    exact hh r (List.mem_of_mem_filter hr)
  rw [summarize_humidity_mean]
  exact ⟨meanOf_ge _ hm 0 (fun x hx => (hmem x hx).1),
    meanOf_le _ hm 100 (fun x hx => (hmem x hx).2)⟩

theorem daily_humidity_in_range_witness :
    0 ≤ (summarize exampleRows 20244).humidity_mean ∧
    (summarize exampleRows 20244).humidity_mean ≤ 100 :=
  daily_humidity_in_range exampleRows (by norm_num [exampleRows])
    (summarize exampleRows 20244) (List.mem_map_of_mem _ (by decide))

/-- Claim C10: with all required fields present, ingestion of a sample
never fails whatever the shape of the optional rain field; the resulting
rain value is the 3h entry when the rain object carries one and 0
otherwise (rain object absent, 3h entry absent or null, or 3h equal to 0
all yield 0, exactly like a fully absent rain object), and the sample's
other fields are carried into the row. -/
theorem rain_field_permissive (dt : Int) (t hum w : Rat) (ds : String)
    (r3 : Option (Option Rat)) :
    ∃ row : Row, parseItem (mkItem dt t hum w ds r3) = Except.ok row ∧
      row.rain = (match r3 with | some (some v) => v | _ => 0) ∧
      row.temp = t ∧ row.humidity = hum ∧ row.wind = w := by
  refine ⟨_, rfl, ?_, rfl, rfl, rfl⟩
  rcases r3 with _ | r3i
  · rfl
  · rcases r3i with _ | v
    · rfl
    · show (if v ≠ 0 then v else 0) = v
      by_cases hv : v = 0
      · subst hv
        simp
      · simp [hv]

/-- Claim C1: for each distinct calendar date of the input,
buildDailySummaries produces exactly one summary, whose temp_mean times
the group size equals the group's temperature sum (arithmetic mean),
whose temp_min and temp_max belong to the group's temperatures and bound
them below and above, whose rain_sum is the group's rain sum and whose
humidity_mean times the group size equals the group's humidity sum; and
on the 8-sample two-date example the summaries carry exactly the values
of the specification. -/
theorem daily_summary_stats :
    (∀ (rows : List Row) (d : Int), d ∈ rows.map Row.date →
      ((buildDailySummaries rows).filter (fun s => s.date == d)).length = 1 ∧
      ∀ s ∈ buildDailySummaries rows, s.date = d →
        (s.temp_mean * ((groupRows rows d).length : Rat) = ((groupRows rows d).map Row.temp).sum ∧
          s.temp_min ∈ (groupRows rows d).map Row.temp ∧
          (∀ x ∈ (groupRows rows d).map Row.temp, s.temp_min ≤ x) ∧
          s.temp_max ∈ (groupRows rows d).map Row.temp ∧
          (∀ x ∈ (groupRows rows d).map Row.temp, x ≤ s.temp_max) ∧
          s.rain_sum = ((groupRows rows d).map Row.rain).sum ∧
          s.humidity_mean * ((groupRows rows d).length : Rat)
            = ((groupRows rows d).map Row.humidity).sum)) ∧
    buildDailySummaries exampleRows =
      [ { date := 20244, temp_mean := 29.5, temp_min := 28, temp_max := 31,
          rain_sum := 1.7, humidity_mean := 55 },
        { date := 20245, temp_mean := 27.5, temp_min := 26, temp_max := 29,
          rain_sum := 2.3, humidity_mean := 60 } ] := by
  constructor
  · intro rows d hd
    have hds : d ∈ sortedDates rows := (mem_sortedDates rows d).mpr hd
    constructor
    · exact filter_date_map_length (sortedDates rows) rows d (sortedDates_nodup rows) hds
    · intro s hs hsd
      obtain ⟨d', hd', rfl⟩ := List.mem_map.mp hs
      have hdd : d' = d := hsd
      subst hdd
      have hg : groupRows rows d' ≠ [] := group_ne_nil rows d' hd'
      have hmt : (groupRows rows d').map Row.temp ≠ [] :=
        fun h => hg (List.map_eq_nil_iff.mp h)
      have hmh : (groupRows rows d').map Row.humidity ≠ [] :=
        fun h => hg (List.map_eq_nil_iff.mp h)
      refine ⟨?_, ?_, ?_, ?_, ?_, summarize_rain_sum rows d', ?_⟩
      · rw [summarize_temp_mean, meanOf, ← List.length_map (groupRows rows d') Row.temp]
        exact div_mul_cancel₀ _ (ne_of_gt (length_cast_pos _ hmt))
      · rw [summarize_temp_min]
        exact listMin_mem _ hmt
      · intro x hx
        rw [summarize_temp_min]
        exact listMin_le_mem _ x hx
      · rw [summarize_temp_max]
        exact listMax_mem _ hmt
      · intro x hx
        rw [summarize_temp_max]
        exact listMax_ge_mem _ x hx
      · rw [summarize_humidity_mean, meanOf,
          ← List.length_map (groupRows rows d') Row.humidity]
        exact div_mul_cancel₀ _ (ne_of_gt (length_cast_pos _ hmh))
  · have hsd : sortedDates exampleRows = [20244, 20245] := by decide
    have hg1 : groupRows exampleRows 20244 =
        [ { dt := 1749081600, date := 20244, time := 0, temp := 28, humidity := 50,
            wind := 3, rain := 0, desc := "Clear Sky" },
          { dt := 1749092400, date := 20244, time := 10800, temp := 30, humidity := 60,
            wind := 3, rain := 1.2, desc := "Light Rain" },
          { dt := 1749103200, date := 20244, time := 21600, temp := 29, humidity := 55,
            wind := 3, rain := 0, desc := "Clouds" },
          { dt := 1749114000, date := 20244, time := 32400, temp := 31, humidity := 55,
            wind := 3, rain := 0.5, desc := "Light Rain" } ] := rfl
    have hg2 : groupRows exampleRows 20245 =
        [ { dt := 1749168000, date := 20245, time := 0, temp := 27, humidity := 60,
            wind := 3, rain := 2, desc := "Rain" },
          { dt := 1749178800, date := 20245, time := 10800, temp := 26, humidity := 60,
            wind := 3, rain := 0, desc := "Clouds" },
          { dt := 1749189600, date := 20245, time := 21600, temp := 28, humidity := 60,
            wind := 3, rain := 0, desc := "Clear Sky" },
          { dt := 1749200400, date := 20245, time := 32400, temp := 29, humidity := 60,
            wind := 3, rain := 0.3, desc := "Clouds" } ] := rfl
    have h1 : summarize exampleRows 20244 =
        { date := 20244, temp_mean := 29.5, temp_min := 28, temp_max := 31,
          rain_sum := 1.7, humidity_mean := 55 } := by
      simp only [summarize, DailySummary.mk.injEq, hg1]
      norm_num [meanOf, listMin, listMax, min_def, max_def]
    have h2 : summarize exampleRows 20245 =
        { date := 20245, temp_mean := 27.5, temp_min := 26, temp_max := 29,
          rain_sum := 2.3, humidity_mean := 60 } := by
      simp only [summarize, DailySummary.mk.injEq, hg2]
      norm_num [meanOf, listMin, listMax, min_def, max_def]
    rw [buildDailySummaries, hsd, List.map_cons, List.map_cons, List.map_nil, h1, h2]

theorem daily_summary_stats_witness :
    ((buildDailySummaries exampleRows).filter (fun s => s.date == 20244)).length = 1 :=
  (daily_summary_stats.1 exampleRows 20244 (by decide)).1

end WeatherApp
